import Mathlib

/-!
Shallow embedding of the AI-DEBUG LLM analysis engine
(`src/llm_engine/__init__.py`) and verification of the frozen claims.

Modelling conventions:
* Python `Optional[str]` results of the LLM client are `Option String`;
  `generate_with_retry` treats `None` and `""` as falsy, exactly as the
  source's `if result:` does.
* The text returned by one retry-wrapped call, classified by what
  `json.loads` would do to it, is a `PyStr α`: `none` (total provider
  failure, `generate_with_retry` returned `None`), `invalid raw`
  (non-empty text on which `json.loads` raises `JSONDecodeError`), or
  `valid v raw` (non-empty text decoding to the call site's schema `α`).
  `json.loads(None)` raises `TypeError`, which is modelled by
  `PyErr.typeError` — a Python `except json.JSONDecodeError` clause does
  not catch it.
* Python floats are modelled by exact rationals `ℚ`; Python's banker's
  rounding `round` is `pyRound`.
* Python substring tests (`pat in s`) are `pyIn`; `str.strip()` is
  `pyStrip`; `str.lower()` is `pyLower` (ASCII, which covers every
  pattern the source matches against).
-/

/-- `startsWithChars p l`: `p` is a prefix of `l`. -/
def startsWithChars : List Char → List Char → Bool
  | [], _ => true
  | _ :: _, [] => false
  | p :: ps, c :: cs => p = c && startsWithChars ps cs

/-- `hasInfixChars p l`: `p` occurs as a contiguous sublist of `l`. -/
def hasInfixChars (pat : List Char) : List Char → Bool
  | [] => startsWithChars pat []
  | c :: cs => startsWithChars pat (c :: cs) || hasInfixChars pat cs

/-- Python `pat in s` substring test. -/
def pyIn (pat s : String) : Bool :=
  hasInfixChars pat.toList s.toList

/-- Python `str.strip()`: drop leading and trailing whitespace. -/
def pyStrip (s : String) : String :=
  String.mk
    (((s.toList.dropWhile Char.isWhitespace).reverse.dropWhile
      Char.isWhitespace).reverse)

/-- Python `str.lower()` (ASCII letters; identity on CJK characters). -/
def pyLower (s : String) : String :=
  String.mk (s.toList.map Char.toLower)

/-- Python `round` on an exact rational: round half to even. -/
def pyRound (q : ℚ) : ℤ :=
  let f : ℤ := ⌊q⌋
  let r : ℚ := q - f
  if r < 1/2 then f
  else if 1/2 < r then f + 1
  else if f % 2 = 0 then f else f + 1

/-- Python truthiness of an `Optional[str]`: `None` and `""` are falsy. -/
def strTruthy : Option String → Bool
  | none => false
  | some s => s ≠ ""

/-!
## Resilient client (`LLMClient.generate_with_retry`)

The provider is abstracted as `gen : Nat → Option String`, giving the
outcome of the `attempt`-th call of `self.generate` (`None` on failure, as
the gateway maps every failure to `None`).  `retryGo` returns the result
together with the number of provider invocations performed.
-/

/-- The retry loop of `LLMClient.generate_with_retry`, with `remaining`
attempts left, starting at attempt index `attempt`.  Returns the result
and the number of `generate` invocations made. -/
def retryGo (gen : Nat → Option String) : Nat → Nat → Option String × Nat
  | _, 0 => (none, 0)
  | attempt, remaining + 1 =>
    let r := gen attempt
    if strTruthy r then (r, 1)
    else
      let rest := retryGo gen (attempt + 1) remaining
      (rest.1, rest.2 + 1)

/-- `LLMClient.generate_with_retry`: up to `max_retries + 1` sequential
attempts, returning the first truthy result, else `None`. -/
def generate_with_retry (gen : Nat → Option String) (max_retries : Nat := 2) :
    Option String :=
  (retryGo gen 0 (max_retries + 1)).1

/-- Number of provider invocations performed by `generate_with_retry`. -/
def retryCallCount (gen : Nat → Option String) (max_retries : Nat := 2) : Nat :=
  (retryGo gen 0 (max_retries + 1)).2

/-!
## Error parser (`ErrorMessageParser`)

The regular expressions of `_rule_based_parsing` are fixed patterns; each
is implemented as a deterministic character-list scanner with the same
leftmost/greedy semantics.
-/

/-- A stack frame as produced by `_rule_based_parsing` (`column` only for
JavaScript frames, `function` absent for bare JavaScript locations). -/
structure StackFrame where
  file : String
  line : Nat
  function : Option String := none
  column : Option Nat := none
deriving DecidableEq, Repr

/-- `self.error_patterns`: language-keyed table of error-name patterns,
in the source's (insertion-ordered) dictionary order.  Every pattern is a
literal, so `re.search` is a substring test. -/
def error_patterns : List (String × List (String × String)) :=
  [("python",
    [("syntax", "SyntaxError"), ("type", "TypeError"), ("name", "NameError"),
     ("attribute", "AttributeError"), ("index", "IndexError"), ("key", "KeyError"),
     ("value", "ValueError"), ("import", "ImportError"),
     ("zero_division", "ZeroDivisionError"), ("assertion", "AssertionError"),
     ("runtime", "RuntimeError"), ("indentation", "IndentationError")]),
   ("javascript",
    [("syntax", "SyntaxError"), ("type", "TypeError"), ("reference", "ReferenceError"),
     ("range", "RangeError"), ("uri", "URIError"), ("eval", "EvalError"),
     ("internal", "InternalError")]),
   ("java",
    [("null_pointer", "NullPointerException"), ("class_cast", "ClassCastException"),
     ("index_out_of_bounds", "IndexOutOfBoundsException"),
     ("arithmetic", "ArithmeticException"),
     ("illegal_argument", "IllegalArgumentException"), ("io", "IOException")])]

/-- The nested pattern loop of `_rule_based_parsing`: first language and
first pattern (in table order) whose pattern occurs in the text; yields
`(error_type, language)`. -/
def findErrorPattern (raw : String) : Option (String × String) :=
  error_patterns.findSome? fun lp =>
    lp.2.findSome? fun ep => if pyIn ep.2 raw then some (ep.1, lp.1) else none

/-- Digits to a number, for `int(line_num)`. -/
def digitsToNat (l : List Char) : Nat :=
  l.foldl (fun n c => n * 10 + (c.toNat - 48)) 0

/-- Consume an exact literal or fail. -/
def dropLit (lit l : List Char) : Option (List Char) :=
  if startsWithChars lit l then some (l.drop lit.length) else none

/-- Match `File "([^\x22]+)", line (\d+), in (\S+)` at the head of `l`;
returns the frame and the rest of the input after the match. -/
def matchPyFrameAt (l : List Char) : Option (StackFrame × List Char) :=
  match dropLit "File \"".toList l with
  | none => none
  | some l1 =>
    let file := l1.takeWhile (fun c => c ≠ '"')
    if file.isEmpty then none else
    match dropLit "\", line ".toList (l1.drop file.length) with
    | none => none
    | some l2 =>
      let ds := l2.takeWhile Char.isDigit
      if ds.isEmpty then none else
      match dropLit ", in ".toList (l2.drop ds.length) with
      | none => none
      | some l3 =>
        let fn := l3.takeWhile (fun c => !c.isWhitespace)
        if fn.isEmpty then none else
        some ({ file := String.mk file, line := digitsToNat ds,
                function := some (String.mk fn) }, l3.drop fn.length)

/-- `re.findall` over the Python-frame pattern: scan left to right,
resuming after each match (fuel bounds the recursion; it starts at the
input length, which the scan never exceeds). -/
def pyFramesAux : Nat → List Char → List StackFrame
  | 0, _ => []
  | _, [] => []
  | fuel + 1, c :: cs =>
    match matchPyFrameAt (c :: cs) with
    | some (f, rest) => f :: pyFramesAux fuel rest
    | none => pyFramesAux fuel cs

/-- All Python stack frames in the text. -/
def pyFrames (raw : String) : List StackFrame :=
  pyFramesAux raw.toList.length raw.toList

/-- `[A-Za-z0-9_]`, the word characters of the error-name patterns. -/
def isWordChar (c : Char) : Bool :=
  c.isAlphanum || c = '_'

/-- Match `([A-Za-z0-9_]+Error): (.+)$` (MULTILINE) at the head of `l`
with `m` characters in the `[A-Za-z0-9_]+` atom: the next five characters
must be `Error`, then `: `, then a nonempty run to the end of the line. -/
def matchErrAtM (l : List Char) (m : Nat) : Option (String × String) :=
  if m = 0 then none else
  if !(l.take m).all isWordChar then none else
  match dropLit "Error".toList (l.drop m) with
  | none => none
  | some l1 =>
    match dropLit ": ".toList l1 with
    | none => none
    | some l2 =>
      let msg := l2.takeWhile (fun c => c ≠ '\n')
      if msg.isEmpty then none else
      some (String.mk (l.take (m + 5)), String.mk msg)

/-- Greedy choice of the `[A-Za-z0-9_]+` length: largest `m ≤ bound` that
matches. -/
def tryErrK (l : List Char) : Nat → Option (String × String)
  | 0 => none
  | m + 1 =>
    match matchErrAtM l (m + 1) with
    | some r => some r
    | none => tryErrK l m

/-- Match the trailing-error-line pattern at the head of `l`. -/
def matchErrLineAt (l : List Char) : Option (String × String) :=
  tryErrK l (l.takeWhile isWordChar).length

/-- `re.search` of `([A-Za-z0-9_]+Error): (.+)$` (MULTILINE): leftmost
match over all suffixes. -/
def searchErrLine : List Char → Option (String × String)
  | [] => none
  | c :: cs =>
    match matchErrLineAt (c :: cs) with
    | some r => some r
    | none => searchErrLine cs

/-- Match `([A-Za-z0-9_]+Error):?\s*(.+?)(?:\n|$)` at the head of `l` with
`m` characters in the word atom: `Error`, an optional `:`, a greedy
whitespace run (backed off while the rest cannot match), then a lazy
nonempty run ending at a newline or the end of input. -/
def matchJsErrAtM (l : List Char) (m : Nat) : Option (String × String) :=
  if m = 0 then none else
  if !(l.take m).all isWordChar then none else
  match dropLit "Error".toList (l.drop m) with
  | none => none
  | some l1 =>
    let l2 := match l1 with
      | ':' :: t => t
      | t => t
    let ws := l2.takeWhile Char.isWhitespace
    let msgFrom := fun (j : Nat) =>
      let tail := l2.drop j
      let msg := tail.takeWhile (fun c => c ≠ '\n')
      if msg.isEmpty then none
      else some (String.mk (l.take (m + 5)), String.mk msg)
    let rec backOff : Nat → Option (String × String)
      | 0 => msgFrom 0
      | j + 1 =>
        match msgFrom (j + 1) with
        | some r => some r
        | none => backOff j
    backOff ws.length

/-- Greedy word-atom length for the JavaScript error-line pattern. -/
def tryJsErrK (l : List Char) : Nat → Option (String × String)
  | 0 => none
  | m + 1 =>
    match matchJsErrAtM l (m + 1) with
    | some r => some r
    | none => tryJsErrK l m

/-- `re.search` of the JavaScript error-line pattern: leftmost match. -/
def searchJsErrLine : List Char → Option (String × String)
  | [] => none
  | c :: cs =>
    match tryJsErrK (c :: cs) ((c :: cs).takeWhile isWordChar).length with
    | some r => some r
    | none => searchJsErrLine cs

/-- Match `at (?:(\S+) \(([^:]+):(\d+):(\d+)\)|([^:]+):(\d+):(\d+))` at the
head of `l` (first the named-function alternative, then the bare one). -/
def matchJsFrameAt (l : List Char) : Option (StackFrame × List Char) :=
  match dropLit "at ".toList l with
  | none => none
  | some l1 =>
    let alt1 :=
      let fn := l1.takeWhile (fun c => !c.isWhitespace)
      if fn.isEmpty then none else
      match dropLit " (".toList (l1.drop fn.length) with
      | none => none
      | some l2 =>
        let file := l2.takeWhile (fun c => c ≠ ':')
        if file.isEmpty then none else
        match l2.drop file.length with
        | ':' :: l3 =>
          let d1 := l3.takeWhile Char.isDigit
          if d1.isEmpty then none else
          (match l3.drop d1.length with
           | ':' :: l4 =>
             let d2 := l4.takeWhile Char.isDigit
             if d2.isEmpty then none else
             (match l4.drop d2.length with
              | ')' :: l5 =>
                some ({ file := String.mk file, line := digitsToNat d1,
                        function := some (String.mk fn),
                        column := some (digitsToNat d2) }, l5)
              | _ => none)
           | _ => none)
        | _ => none
    match alt1 with
    | some r => some r
    | none =>
      let file := l1.takeWhile (fun c => c ≠ ':')
      if file.isEmpty then none else
      match l1.drop file.length with
      | ':' :: l3 =>
        let d1 := l3.takeWhile Char.isDigit
        if d1.isEmpty then none else
        (match l3.drop d1.length with
         | ':' :: l4 =>
           let d2 := l4.takeWhile Char.isDigit
           if d2.isEmpty then none else
           some ({ file := String.mk file, line := digitsToNat d1,
                   column := some (digitsToNat d2) }, l4.drop d2.length)
         | _ => none)
      | _ => none

/-- `re.findall` over the JavaScript frame pattern. -/
def jsFramesAux : Nat → List Char → List StackFrame
  | 0, _ => []
  | _, [] => []
  | fuel + 1, c :: cs =>
    match matchJsFrameAt (c :: cs) with
    | some (f, rest) => f :: jsFramesAux fuel rest
    | none => jsFramesAux fuel cs

/-- All JavaScript stack frames in the text. -/
def jsFrames (raw : String) : List StackFrame :=
  jsFramesAux raw.toList.length raw.toList

/-- The result dictionary built by `ErrorMessageParser._rule_based_parsing`
(`error_location = none` models the empty dict `{}`). -/
structure RuleParseResult where
  error_type : String
  error_language : String
  stack_trace : List StackFrame
  error_location : Option StackFrame
  error_message : String
deriving DecidableEq, Repr

/-- `ErrorMessageParser._rule_based_parsing`. -/
def rule_based_parsing (raw_error : String) : RuleParseResult :=
  let base : RuleParseResult :=
    { error_type := "未知", error_language := "未知", stack_trace := [],
      error_location := none, error_message := raw_error }
  let r1 := match findErrorPattern raw_error with
    | some tl => { base with error_type := tl.1, error_language := tl.2 }
    | none => base
  if pyIn "Traceback (most recent call last)" raw_error then
    let st := pyFrames raw_error
    let r2 := { r1 with error_language := "python", stack_trace := st }
    let r3 := match searchErrLine raw_error.toList with
      | some tm => { r2 with error_type := tm.1, error_message := tm.2 }
      | none => r2
    match st.getLast? with
    | some f => { r3 with error_location := some f }
    | none => r3
  else if pyIn "at " raw_error &&
      (pyIn "TypeError" raw_error || pyIn "ReferenceError" raw_error) then
    let r2 := { r1 with error_language := "javascript" }
    let r3 := match searchJsErrLine raw_error.toList with
      | some tm => { r2 with error_type := tm.1, error_message := pyStrip tm.2 }
      | none => r2
    let st := jsFrames raw_error
    let r4 := { r3 with stack_trace := st }
    match st.head? with
    | some f => { r4 with error_location := some f }
    | none => r4
  else r1

/-!
## LLM replies and Python exceptions

Each analyzer call site feeds the text returned by
`generate_with_retry` to `json.loads`.  A `PyStr α` classifies that text
for a call site whose expected schema is `α`.  Note that
`generate_with_retry` never returns `""` (an empty result is treated as a
failed attempt), so the Python-falsy case is exactly `PyStr.none`.
-/

/-- Exceptions that the embedded code can raise.  `json.loads(None)`
raises `TypeError`; `except json.JSONDecodeError` does not catch it. -/
inductive PyErr
  | typeError
deriving DecidableEq, Repr

/-- Outcome of one retry-wrapped call, classified by `json.loads`. -/
inductive PyStr (α : Type)
  | none
  | invalid (raw : String)
  | valid (v : α) (raw : String)
deriving DecidableEq, Repr

/-- `json.loads` applied to the (optional) reply text: `TypeError` on
`None`, `JSONDecodeError` on undecodable text, the schema value else.
The error carries the raw text for the fallback objects that keep it. -/
def jsonLoadsReply {α : Type} : PyStr α → Except (PyErr ⊕ String) α
  | .none => .error (.inl .typeError)
  | .invalid raw => .error (.inr raw)
  | .valid v _ => .ok v

/-- The JSON schema requested by `ErrorMessageParser._llm_based_parsing`. -/
structure ErrOverlay where
  root_cause_summary : String
  severity : String
  affected_components : List String
  common_triggers : List String
  environmental_factors : List String
  relevant_variables : List String
deriving DecidableEq, Repr

/-- What `_llm_based_parsing` returns: the empty dict `{}` when the LLM
reply was falsy, the decoded analysis, or the fixed fallback object
(which also preserves the raw text under `raw_analysis`). -/
inductive LLMParseOverlay
  | empty
  | parsed (a : ErrOverlay)
  | fallbackObj (a : ErrOverlay) (raw_analysis : String)
deriving DecidableEq, Repr

/-- The fixed fields of `_llm_based_parsing`'s fallback object. -/
def llmParseFallbackFields : ErrOverlay :=
  { root_cause_summary := "未能自动解析", severity := "未知",
    affected_components := [], common_triggers := [],
    environmental_factors := [], relevant_variables := [] }

/-- `ErrorMessageParser._llm_based_parsing`: the reply is only decoded
when truthy, so a total provider failure yields `{}` inside the `try`
and never raises. -/
def llm_based_parsing : PyStr ErrOverlay → LLMParseOverlay
  | .none => .empty
  | .invalid raw => .fallbackObj llmParseFallbackFields raw
  | .valid v _ => .parsed v

/-- The merged dictionary `{**basic_parsed, **llm_parsed}` that
`parse_error` wraps under the key `parsed_error`.  The overlay's keys
(the six schema fields plus `raw_analysis`) are disjoint from the
rule-based keys, so the merge keeps both parts intact. -/
structure ParsedError where
  basic : RuleParseResult
  overlay : LLMParseOverlay
deriving DecidableEq, Repr

/-- `affected_components` of the merged dict, with default `[]`
(used by the root-cause categorizer). -/
def ParsedError.affectedComponents (p : ParsedError) : List String :=
  match p.overlay with
  | .empty => []
  | .parsed a => a.affected_components
  | .fallbackObj a _ => a.affected_components

/-- `error_type` of the merged dict (a rule-based key, never overlaid). -/
def ParsedError.errorType (p : ParsedError) : String :=
  p.basic.error_type

/-- `error_language` of the merged dict. -/
def ParsedError.errorLanguage (p : ParsedError) : String :=
  p.basic.error_language

/-- An `error_message` input record (from the input layer). -/
structure ErrorInput where
  raw_content : String
  error_type : Option String := Option.none
  language : Option String := Option.none
deriving DecidableEq, Repr

/-- `ErrorMessageParser.parse_error`: rule-based parse, LLM overlay,
merge.  `reply` is the LLM's answer to the one retry-wrapped call the
method makes. -/
def parse_error (error_info : ErrorInput) (reply : PyStr ErrOverlay) :
    ParsedError :=
  let basic := rule_based_parsing error_info.raw_content
  { basic := basic, overlay := llm_based_parsing reply }

/-!
## Code analyzer (`CodeAnalyzer`)
-/

/-- One retry-wrapped LLM invocation, named by its call site (used to
state which model calls a pipeline run performs). -/
inductive CallSite
  | errorParseCall
  | syntaxCall
  | semanticsCall
  | logEventsCall
  | rootCauseCall
  | solutionCall
deriving DecidableEq, Repr

/-- An entry of `syntax_issues` in the phase-A schema. -/
structure SyntaxIssue where
  issue_type : String
  description : String
  severity : String
  line_reference : String
deriving DecidableEq, Repr

/-- The `code_structure` block of the phase-A schema. -/
structure CodeStructure where
  complexity_score : ℚ
  main_components : List String
  structure_quality : String
  structure_issues : List String
deriving DecidableEq, Repr

/-- The `style_consistency` block of the phase-A schema. -/
structure StyleConsistency where
  naming_convention : String
  indentation : String
  comment_quality : String
deriving DecidableEq, Repr

/-- The phase-A (`_analyze_syntax`) result dictionary; `raw_analysis` is
set only by the fallback object. -/
structure SyntaxAnalysis where
  syntax_issues : List SyntaxIssue
  code_structure : CodeStructure
  style_consistency : StyleConsistency
  raw_analysis : Option String := Option.none
deriving DecidableEq, Repr

/-- The fixed fallback of `_analyze_syntax` on a JSON-decode failure. -/
def syntaxFallback (raw : String) : SyntaxAnalysis :=
  { syntax_issues := [],
    code_structure :=
      { complexity_score := 5
        main_components := []
        structure_quality := "无法评估"
        structure_issues := [] },
    style_consistency :=
      { naming_convention := "无法评估"
        indentation := "无法评估"
        comment_quality := "无法评估" },
    raw_analysis := some raw }

/-- `CodeAnalyzer._analyze_syntax` after the LLM call: decode the reply;
a `JSONDecodeError` is absorbed into the fallback, while the `TypeError`
raised by `json.loads(None)` propagates. -/
def syntaxPhase (reply : PyStr SyntaxAnalysis) : Except PyErr SyntaxAnalysis :=
  match jsonLoadsReply reply with
  | .ok v => .ok v
  | .error (.inr raw) => .ok (syntaxFallback raw)
  | .error (.inl e) => .error e

/-- An entry of `logic_issues` in the phase-B schema. -/
structure LogicIssue where
  issue : String
  impact : String
  severity : String
deriving DecidableEq, Repr

/-- An entry of `potential_bugs` in the phase-B schema. -/
structure PotentialBug where
  bug_type : String
  description : String
  likely_outcome : String
  fix_suggestion : String
deriving DecidableEq, Repr

/-- An entry of `performance_issues` in the phase-B schema. -/
structure PerformanceIssue where
  issue : String
  impact : String
  optimization : String
deriving DecidableEq, Repr

/-- An entry of `security_concerns` in the phase-B schema. -/
structure SecurityConcern where
  vulnerability : String
  description : String
  severity : String
  mitigation : String
deriving DecidableEq, Repr

/-- The `logic_analysis` block of the phase-B schema. -/
structure LogicAnalysis where
  purpose : String
  logic_flow : String
  edge_cases : List String
  logic_issues : List LogicIssue
deriving DecidableEq, Repr

/-- The phase-B (`_analyze_semantics`) result dictionary. -/
structure SemanticAnalysis where
  logic_analysis : LogicAnalysis
  potential_bugs : List PotentialBug
  performance_issues : List PerformanceIssue
  security_concerns : List SecurityConcern
  raw_analysis : Option String := Option.none
deriving DecidableEq, Repr

/-- The fixed fallback of `_analyze_semantics` on a JSON-decode failure. -/
def semanticFallback (raw : String) : SemanticAnalysis :=
  { logic_analysis :=
      { purpose := "无法确定"
        logic_flow := "无法分析"
        edge_cases := []
        logic_issues := [] },
    potential_bugs := [], performance_issues := [], security_concerns := [],
    raw_analysis := some raw }

/-- `CodeAnalyzer._analyze_semantics` after the LLM call. -/
def semanticsPhase (reply : PyStr SemanticAnalysis) :
    Except PyErr SemanticAnalysis :=
  match jsonLoadsReply reply with
  | .ok v => .ok v
  | .error (.inr raw) => .ok (semanticFallback raw)
  | .error (.inl e) => .error e

/-- `CodeAnalyzer._evaluate_code_quality`: deterministic 1..10 score. -/
def evaluate_code_quality (syntax_analysis : SyntaxAnalysis)
    (semantic_analysis : SemanticAnalysis) : ℤ :=
  let score : ℚ := 5
  let complexity_score := syntax_analysis.code_structure.complexity_score
  let structure_quality := syntax_analysis.code_structure.structure_quality
  let style := syntax_analysis.style_consistency
  let score := score - (complexity_score - 5) * (3/10)
  let score := if structure_quality = "良好" then score + 1
    else if structure_quality = "较差" then score - 1
    else score
  let score := if style.naming_convention = "一致" then score + 1/2 else score
  let score := if style.indentation = "一致" then score + 1/2 else score
  let score := if style.comment_quality = "良好" then score + 1/2 else score
  let logic_issues := semantic_analysis.logic_analysis.logic_issues
  let bugs := semantic_analysis.potential_bugs
  let security := semantic_analysis.security_concerns
  let severe_issues := (logic_issues.countP (fun i => i.severity == "高"))
    + (security.countP (fun i => i.severity == "高"))
  let score := score - (severe_issues : ℚ) * (4/5)
  let total_issues := logic_issues.length + bugs.length + security.length
  let score := score - (total_issues : ℚ) * (1/5)
  max 1 (min 10 (pyRound score))

/-- `CodeAnalyzer._generate_quality_summary`. -/
def generate_quality_summary (score : ℤ) : String :=
  if 8 ≤ score then "代码质量优秀，结构清晰，符合最佳实践。"
  else if 6 ≤ score then "代码质量良好，有少量可改进之处。"
  else if 4 ≤ score then "代码质量一般，存在多处需要改进的地方。"
  else "代码质量较差，需要进行大量重构。"

/-- `CodeAnalyzer._identify_code_strengths`. -/
def identify_code_strengths (sa : SyntaxAnalysis) (sem : SemanticAnalysis) :
    List String :=
  let strengths :=
    (if sa.code_structure.complexity_score ≤ 5 then ["代码复杂度适中"] else []) ++
    (if sa.code_structure.structure_quality = "良好" then ["代码结构清晰"] else []) ++
    (if sa.style_consistency.naming_convention = "一致" then ["命名规范统一"] else []) ++
    (if sa.style_consistency.comment_quality = "良好" then ["注释详细清晰"] else []) ++
    (if sa.style_consistency.indentation = "一致" then ["缩进格式一致"] else []) ++
    (if sem.logic_analysis.edge_cases = [] then ["考虑了边缘情况"] else []) ++
    (if sem.logic_analysis.logic_issues = [] then ["逻辑结构合理"] else [])
  if strengths = [] then ["代码基本功能实现"] else strengths

/-- `CodeAnalyzer._identify_code_weaknesses`. -/
def identify_code_weaknesses (sa : SyntaxAnalysis) (sem : SemanticAnalysis) :
    List String :=
  (if 7 < sa.code_structure.complexity_score then ["代码复杂度过高"] else []) ++
  (if sa.code_structure.structure_quality = "较差" then ["代码结构混乱"] else []) ++
  (if sa.style_consistency.naming_convention = "不一致" then ["命名规范不统一"] else []) ++
  (if sa.style_consistency.comment_quality = "缺乏" then ["注释不足"] else []) ++
  (if sem.logic_analysis.edge_cases ≠ [] then ["未处理的边缘情况"] else []) ++
  (if sem.logic_analysis.logic_issues ≠ [] then ["存在逻辑问题"] else []) ++
  (if sem.potential_bugs ≠ [] then ["存在潜在bug"] else []) ++
  (if sem.performance_issues ≠ [] then ["存在性能问题"] else []) ++
  (if sem.security_concerns ≠ [] then ["存在安全隐患"] else [])

/-- An improvement-suggestion entry. -/
structure Suggestion where
  area : String
  description : String
  suggestion : String
deriving DecidableEq, Repr

/-- `CodeAnalyzer._get_language_specific_suggestions`. -/
def get_language_specific_suggestions (language : String) : List Suggestion :=
  if language = "python" then
    [⟨"Python最佳实践", "使用列表推导式替代显式循环", "考虑使用列表推导式以提高代码简洁性和性能"⟩,
     ⟨"Python最佳实践", "使用上下文管理器处理资源", "使用 'with' 语句处理文件和资源，确保资源正确释放"⟩]
  else if language = "javascript" then
    [⟨"JavaScript最佳实践", "使用现代ES6+特性", "考虑使用箭头函数、解构赋值、模板字符串等现代JavaScript特性"⟩,
     ⟨"JavaScript最佳实践", "避免回调地狱", "使用Promise或async/await代替多层嵌套回调"⟩]
  else if language = "java" then
    [⟨"Java最佳实践", "使用Stream API处理集合", "考虑使用Stream API简化集合操作并提高可读性"⟩,
     ⟨"Java最佳实践", "优化StringBuilder使用", "字符串连接操作中使用StringBuilder替代+运算符"⟩]
  else []

/-- `CodeAnalyzer._generate_improvement_suggestions` (the schema fields
`fix_suggestion` and `optimization` are present, so their `.get`
defaults are not reachable here).  The final `other_suggestions` slice
uses Python's `max(0, ...)`, which is Lean's truncated `Nat`
subtraction. -/
def generate_improvement_suggestions (sa : SyntaxAnalysis)
    (sem : SemanticAnalysis) (language : String) : List Suggestion :=
  let suggestions :=
    sa.syntax_issues.map
      (fun i => ⟨"语法", i.description, "修复语法问题: " ++ i.description⟩) ++
    sa.code_structure.structure_issues.map
      (fun i => ⟨"结构", i, "改进代码结构: " ++ i⟩) ++
    sem.logic_analysis.logic_issues.map
      (fun i => ⟨"逻辑", i.issue, "修复逻辑问题: " ++ i.issue⟩) ++
    sem.potential_bugs.map
      (fun b => (⟨"Bug修复", b.description, b.fix_suggestion⟩ : Suggestion)) ++
    sem.performance_issues.map
      (fun i => (⟨"性能优化", i.issue, i.optimization⟩ : Suggestion)) ++
    sem.security_concerns.map
      (fun i => (⟨"安全加固", i.description, i.mitigation⟩ : Suggestion)) ++
    get_language_specific_suggestions language
  if 10 < suggestions.length then
    let security_suggestions := suggestions.filter (fun s => s.area == "安全加固")
    let bug_suggestions := suggestions.filter (fun s => s.area == "Bug修复")
    let other_suggestions := suggestions.filter
      (fun s => !(s.area == "安全加固" || s.area == "Bug修复"))
    security_suggestions ++ bug_suggestions ++
      other_suggestions.take
        (10 - security_suggestions.length - bug_suggestions.length)
  else suggestions

/-- The `code_quality` block of the combined analysis. -/
structure CodeQuality where
  overall_score : ℤ
  summary : String
  strengths : List String
  weaknesses : List String
deriving DecidableEq, Repr

/-- The result of `CodeAnalyzer._combine_analysis_results` (wrapped by
`analyze_code` under the key `code_analysis`). -/
structure CombinedCodeAnalysis where
  code_quality : CodeQuality
  potential_bugs : List PotentialBug
  performance_issues : List PerformanceIssue
  security_concerns : List SecurityConcern
  improvement_suggestions : List Suggestion
deriving DecidableEq, Repr

/-- `CodeAnalyzer._combine_analysis_results`. -/
def combine_analysis_results (sa : SyntaxAnalysis) (sem : SemanticAnalysis)
    (language : String) : CombinedCodeAnalysis :=
  let code_quality_score := evaluate_code_quality sa sem
  { code_quality :=
      { overall_score := code_quality_score,
        summary := generate_quality_summary code_quality_score,
        strengths := identify_code_strengths sa sem,
        weaknesses := identify_code_weaknesses sa sem },
    potential_bugs := sem.potential_bugs,
    performance_issues := sem.performance_issues,
    security_concerns := sem.security_concerns,
    improvement_suggestions :=
      generate_improvement_suggestions sa sem language }

/-- A `code_snippet` input record (from the input layer). -/
structure CodeInput where
  raw_content : String
  language : Option String := Option.none
  filename : Option String := Option.none
  context : Option String := Option.none
deriving DecidableEq, Repr

/-- `CodeAnalyzer.analyze_code`: phase A, then phase B, then combination;
also reports the retry-wrapped LLM calls it performed, in order.  (The
`_get_language_specific_analysis` strategy is computed by the source but
never used.) -/
def analyze_code (code_info : CodeInput) (synReply : PyStr SyntaxAnalysis)
    (semReply : PyStr SemanticAnalysis) :
    Except PyErr CombinedCodeAnalysis × List CallSite :=
  let language := pyLower (code_info.language.getD "未知语言")
  match syntaxPhase synReply with
  | .error e => (.error e, [.syntaxCall])
  | .ok sa =>
    match semanticsPhase semReply with
    | .error e => (.error e, [.syntaxCall, .semanticsCall])
    | .ok sem =>
      (.ok (combine_analysis_results sa sem language),
       [.syntaxCall, .semanticsCall])

/-!
## Root-cause inference (`ProblemCauseInferenceModule`)
-/

/-- One key log event in the schema requested from the LLM. -/
structure LogEvent where
  timestamp : String
  level : String
  message : String
  component : Option String := Option.none
deriving DecidableEq, Repr

/-- A `log_info` input record. -/
structure LogInput where
  raw_content : String
deriving DecidableEq, Repr

/-- A `problem_description` input record. -/
structure ProblemInput where
  raw_content : String
deriving DecidableEq, Repr

/-- The `inputs` mapping of an analysis request: each of the four
recognized keys is optionally present. -/
structure AnalysisInputs where
  error_message : Option ErrorInput := Option.none
  code_snippet : Option CodeInput := Option.none
  problem_description : Option ProblemInput := Option.none
  log_info : Option LogInput := Option.none
deriving DecidableEq, Repr

/-- An entry of the knowledge-base response (`solution` key optional:
`_prepare_context` tests `"solution" in bug`). -/
structure SimilarBug where
  title : String
  description : String
  solution : Option String := Option.none
  similarity : ℚ := 0
deriving DecidableEq, Repr

/-- `ProblemCauseInferenceModule._extract_key_log_events`: empty log
text never triggers a call; a decode failure yields `[]`; the reply
being `None` raises `TypeError` from `json.loads(None)`. -/
def extract_key_log_events (log_raw : String)
    (reply : PyStr (List LogEvent)) :
    Except PyErr (List LogEvent) × List CallSite :=
  if log_raw = "" then (.ok [], [])
  else
    match jsonLoadsReply reply with
    | .ok events => (.ok events, [.logEventsCall])
    | .error (.inr _) => (.ok [], [.logEventsCall])
    | .error (.inl e) => (.error e, [.logEventsCall])

/-- The `error_data` bundle of the integrated information. -/
structure IntegratedErrorData where
  raw : String
  analysis : Option ParsedError := Option.none
deriving DecidableEq, Repr

/-- The `code_data` bundle of the integrated information. -/
structure IntegratedCodeData where
  raw : String
  language : String
  analysis : Option CombinedCodeAnalysis := Option.none
deriving DecidableEq, Repr

/-- The `log_data` bundle of the integrated information. -/
structure IntegratedLogData where
  raw : String
  key_events : List LogEvent
deriving DecidableEq, Repr

/-- The bundle built by `_preprocess_information` (a `none` component is
the empty dict `{}`, which is Python-falsy). -/
structure IntegratedInfo where
  error_data : Option IntegratedErrorData := Option.none
  code_data : Option IntegratedCodeData := Option.none
  context_data : Option String := Option.none
  log_data : Option IntegratedLogData := Option.none
deriving DecidableEq, Repr

/-- `ProblemCauseInferenceModule._preprocess_information` (the log branch
makes the one possible LLM call of this phase and can raise). -/
def preprocess_information (input : AnalysisInputs)
    (error_analysis : Option ParsedError)
    (code_analysis : Option CombinedCodeAnalysis)
    (logReply : PyStr (List LogEvent)) :
    Except PyErr IntegratedInfo × List CallSite :=
  let error_data : Option IntegratedErrorData :=
    match input.error_message with
    | Option.none => Option.none
    | some e => some { raw := e.raw_content, analysis := error_analysis }
  let code_data : Option IntegratedCodeData :=
    match input.code_snippet with
    | Option.none => Option.none
    | some c =>
      some { raw := c.raw_content, language := c.language.getD "",
             analysis := code_analysis }
  let context_data : Option String :=
    match input.problem_description with
    | Option.none => Option.none
    | some p => some p.raw_content
  match input.log_info with
  | Option.none =>
    (.ok { error_data := error_data, code_data := code_data,
           context_data := context_data, log_data := Option.none }, [])
  | some lg =>
    match extract_key_log_events lg.raw_content logReply with
    | (.error e, calls) => (.error e, calls)
    | (.ok events, calls) =>
      (.ok { error_data := error_data, code_data := code_data,
             context_data := context_data,
             log_data := some { raw := lg.raw_content, key_events := events } },
       calls)

/-- The four cause-category scores. -/
structure CauseScores where
  data_issues : ℚ
  logic_issues : ℚ
  system_issues : ℚ
  code_issues : ℚ
deriving DecidableEq, Repr

/-- Sum of the four scores (`sum(categories.values())`). -/
def CauseScores.total (c : CauseScores) : ℚ :=
  c.data_issues + c.logic_issues + c.system_issues + c.code_issues

/-- The raw (pre-normalization) accumulation of
`_categorize_potential_causes`: fixed increments keyed by substrings of
the raw error text, by overlay components, by bug-type keywords, and by
the security-concern count. -/
def categorize_raw (info : IntegratedInfo) : CauseScores :=
  let c : CauseScores := ⟨0, 0, 0, 0⟩
  let c := match info.error_data with
    | Option.none => c
    | some ed =>
      let raw := ed.raw
      let c := if pyIn "TypeError" raw || pyIn "ValueError" raw then
          { c with data_issues := c.data_issues + 3/10 } else c
      let c := if pyIn "IndexError" raw || pyIn "KeyError" raw then
          { c with logic_issues := c.logic_issues + 3/10,
                   data_issues := c.data_issues + 1/5 } else c
      let c := if pyIn "PermissionError" raw || pyIn "ConnectionError" raw then
          { c with system_issues := c.system_issues + 2/5 } else c
      let c := if pyIn "SyntaxError" raw || pyIn "ImportError" raw then
          { c with code_issues := c.code_issues + 2/5 } else c
      match ed.analysis with
      | Option.none => c
      | some pe =>
        pe.affectedComponents.foldl (fun c comp =>
          if pyIn "database" (pyLower comp) || pyIn "data" (pyLower comp) then
            { c with data_issues := c.data_issues + 1/5 }
          else if pyIn "network" (pyLower comp) || pyIn "system" (pyLower comp) then
            { c with system_issues := c.system_issues + 1/5 }
          else c) c
  match info.code_data with
  | Option.none => c
  | some cd =>
    match cd.analysis with
    | Option.none => c
    | some ca =>
      let c := ca.potential_bugs.foldl (fun c bug =>
        let bug_type := pyLower bug.bug_type
        if ["type", "null", "undefined", "reference"].any
            (fun p => pyIn p bug_type) then
          { c with data_issues := c.data_issues + 3/20 }
        else if ["logic", "condition", "loop"].any
            (fun p => pyIn p bug_type) then
          { c with logic_issues := c.logic_issues + 3/20 }
        else if ["syntax", "import", "declaration"].any
            (fun p => pyIn p bug_type) then
          { c with code_issues := c.code_issues + 3/20 }
        else c) c
      let n := ca.security_concerns.length
      if n ≠ 0 then
        { c with system_issues := c.system_issues + (1/10 : ℚ) * n,
                 code_issues := c.code_issues + (1/20 : ℚ) * n }
      else c

/-- `ProblemCauseInferenceModule._categorize_potential_causes`:
accumulate, then normalize by the total, or set every category to 0.25
when there is no signal. -/
def categorize_potential_causes (info : IntegratedInfo) : CauseScores :=
  let c := categorize_raw info
  let total := c.total
  if 0 < total then
    ⟨c.data_issues / total, c.logic_issues / total,
     c.system_issues / total, c.code_issues / total⟩
  else ⟨1/4, 1/4, 1/4, 1/4⟩

/-- The JSON schema requested by `_deep_causal_analysis`. -/
structure RootCauseAnalysis where
  root_cause : String
  causal_chain : List String
  explanation : String
  affected_components : List String
  evidence : List String
  confidence_level : ℚ
  confidence_explanation : String
deriving DecidableEq, Repr

/-- The fixed fallback of `_deep_causal_analysis` on a JSON-decode
failure (it keeps the first 500 characters of the reply). -/
def deepCausalFallback (raw : String) : RootCauseAnalysis :=
  { root_cause := "无法确定",
    causal_chain := [],
    explanation := "分析过程遇到问题，无法生成结构化结果。原始分析：" ++ raw.take 500,
    affected_components := [],
    evidence := [],
    confidence_level := 1,
    confidence_explanation := "由于分析结果解析失败，置信度很低" }

/-- `ProblemCauseInferenceModule._deep_causal_analysis` after the LLM
call: decode, absorb `JSONDecodeError` into the fallback, propagate the
`TypeError` of `json.loads(None)`. -/
def deep_causal_analysis (reply : PyStr RootCauseAnalysis) :
    Except PyErr RootCauseAnalysis :=
  match jsonLoadsReply reply with
  | .ok v => .ok v
  | .error (.inr raw) => .ok (deepCausalFallback raw)
  | .error (.inl e) => .error e

/-- `_determine_problem_type`'s data-issue keyword list. -/
def data_patterns : List String :=
  ["空值", "null", "undefined", "类型错误", "type error",
   "数据格式", "数据不一致", "缺少数据"]

/-- `_determine_problem_type`'s logic-issue keyword list. -/
def logic_patterns : List String :=
  ["逻辑错误", "条件判断", "边界条件", "算法错误",
   "状态管理", "异常流程", "竞态条件"]

/-- `_determine_problem_type`'s system-issue keyword list. -/
def system_patterns : List String :=
  ["资源不足", "内存溢出", "权限不足", "配置错误",
   "网络问题", "环境差异", "依赖问题"]

/-- `_determine_problem_type`'s code-issue keyword list. -/
def code_patterns : List String :=
  ["语法错误", "实现错误", "方法调用", "接口使用",
   "版本不兼容", "缺失功能"]

/-- `ProblemCauseInferenceModule._determine_problem_type`. -/
def determine_problem_type (root_cause : String) (input : AnalysisInputs) :
    String :=
  let root_cause_lower := pyLower root_cause
  let problem_type :=
    if data_patterns.any (fun p => pyIn p root_cause_lower) then "数据问题"
    else if logic_patterns.any (fun p => pyIn p root_cause_lower) then "逻辑问题"
    else if system_patterns.any (fun p => pyIn p root_cause_lower) then "系统问题"
    else if code_patterns.any (fun p => pyIn p root_cause_lower) then "代码问题"
    else "未分类"
  if problem_type = "未分类" then
    match input.error_message with
    | Option.none => problem_type
    | some e =>
      let error_raw := pyLower e.raw_content
      if ["typeerror", "valueerror", "keyerror", "indexerror"].any
          (fun s => pyIn s error_raw) then "数据问题"
      else if ["logicerror", "assertionerror"].any
          (fun s => pyIn s error_raw) then "逻辑问题"
      else if ["ioerror", "permissionerror", "memoryerror",
               "connectionerror"].any (fun s => pyIn s error_raw) then "系统问题"
      else if ["syntaxerror", "importerror", "attributeerror",
               "nameerror"].any (fun s => pyIn s error_raw) then "代码问题"
      else problem_type
  else problem_type

/-- The severity-keyword scan of `_determine_severity` (its first block):
the base severity before component-based adjustment. -/
def severityFromError (input : AnalysisInputs) : String :=
  match input.error_message with
  | Option.none => "中"
  | some e =>
    let error_raw := pyLower e.raw_content
    let critical_patterns := ["crash", "崩溃", "fatal", "致命", "数据丢失",
                              "data loss", "严重漏洞"]
    let high_patterns := ["error", "错误", "exception", "异常", "无法", "失败"]
    let low_patterns := ["warning", "警告", "minor", "轻微", "deprecated",
                         "不推荐"]
    if critical_patterns.any (fun p => pyIn p error_raw) then "高"
    else if high_patterns.any (fun p => pyIn p error_raw) then "中高"
    else if low_patterns.any (fun p => pyIn p error_raw) then "低"
    else "中"

/-- The core-component vocabulary of `_determine_severity`. -/
def core_components : List String :=
  ["database", "security", "authentication", "payment", "core",
   "主模块", "数据库", "安全", "认证", "支付"]

/-- `ProblemCauseInferenceModule._determine_severity` (the `root_cause`
parameter is taken but unused by the source body). -/
def determine_severity (_root_cause : String) (input : AnalysisInputs)
    (affected_components : List String) : String :=
  let severity := severityFromError input
  if affected_components ≠ [] then
    let severity :=
      if 3 < affected_components.length then
        if severity = "低" then "中"
        else if severity = "中" then "中高"
        else if severity = "中高" then "高"
        else severity
      else severity
    if affected_components.any (fun comp =>
        core_components.any (fun core => pyIn core (pyLower comp))) then "高"
    else severity
  else severity

/-- `ProblemCauseInferenceModule._extract_related_factors`. -/
def extract_related_factors (causal_chain affected_components evidence :
    List String) : List String :=
  causal_chain.map (fun event => "链式事件: " ++ event) ++
  affected_components.map (fun comp => "影响组件: " ++ comp) ++
  evidence.map (fun evid => "相关证据: " ++ evid)

/-- The conclusion dictionary built by `_form_conclusion` (wrapped by
`analyze_root_cause` under the key `root_cause_analysis`). -/
structure RootCauseConclusion where
  root_cause : String
  explanation : String
  problem_type : String
  severity : String
  causal_chain : List String
  affected_components : List String
  related_factors : List String
  confidence_level : ℚ
  confidence_explanation : String
deriving DecidableEq, Repr

/-- `ProblemCauseInferenceModule._form_conclusion`. -/
def form_conclusion (rca : RootCauseAnalysis) (input : AnalysisInputs) :
    RootCauseConclusion :=
  { root_cause := rca.root_cause,
    explanation := rca.explanation,
    problem_type := determine_problem_type rca.root_cause input,
    severity := determine_severity rca.root_cause input
      rca.affected_components,
    causal_chain := rca.causal_chain,
    affected_components := rca.affected_components,
    related_factors := extract_related_factors rca.causal_chain
      rca.affected_components rca.evidence,
    confidence_level := rca.confidence_level,
    confidence_explanation := rca.confidence_explanation }

/-- `ProblemCauseInferenceModule.analyze_root_cause`: integrate,
categorize, deep analysis, conclusion.  `similar_bugs` only feeds the
prompt of the deep-analysis call. -/
def analyze_root_cause (input : AnalysisInputs)
    (error_analysis : Option ParsedError)
    (code_analysis : Option CombinedCodeAnalysis)
    (_similar_bugs : List SimilarBug)
    (logReply : PyStr (List LogEvent))
    (causeReply : PyStr RootCauseAnalysis) :
    Except PyErr RootCauseConclusion × List CallSite :=
  match preprocess_information input error_analysis code_analysis logReply with
  | (.error e, calls) => (.error e, calls)
  | (.ok info, calls) =>
    let _cause_categories := categorize_potential_causes info
    match deep_causal_analysis causeReply with
    | .error e => (.error e, calls ++ [.rootCauseCall])
    | .ok rca => (.ok (form_conclusion rca input), calls ++ [.rootCauseCall])

/-!
## Fix-suggestion generator (`FixSuggestionGenerator`)
-/

/-- A code-change entry of the solution schema (fields optional: the
enhancement step fills them with `.get` defaults). -/
structure CodeChange where
  file : Option String := Option.none
  original_code : Option String := Option.none
  fixed_code : Option String := Option.none
  explanation : Option String := Option.none
deriving DecidableEq, Repr

/-- The solution dictionary.  `raw_solution` is present exactly on the
JSON-decode fallback of `_generate_detailed_solution`. -/
structure Solution where
  solution_summary : String
  fix_steps : List String
  code_changes : List CodeChange
  explanation : String
  prevention_tips : List String
  alternative_solutions : List String
  raw_solution : Option String := Option.none
deriving DecidableEq, Repr

/-- `self.fix_strategies["data_issues"]`. -/
def fix_strategies_data : List String :=
  ["添加数据验证和处理", "修复类型错误", "处理边缘情况和空值",
   "修正数据格式和编码", "增加默认值和回退逻辑"]

/-- `self.fix_strategies["logic_issues"]`. -/
def fix_strategies_logic : List String :=
  ["修正条件判断", "优化算法实现", "处理边界条件", "修复状态管理",
   "改进异常处理流程"]

/-- `self.fix_strategies["system_issues"]`. -/
def fix_strategies_system : List String :=
  ["调整系统配置", "修复依赖问题", "解决权限和安全问题", "优化资源使用",
   "修复网络和连接问题"]

/-- `self.fix_strategies["code_issues"]`. -/
def fix_strategies_code : List String :=
  ["修复语法错误", "重构代码结构", "优化API使用方式", "解决版本兼容性问题",
   "实现缺失功能"]

/-- `self.language_fix_templates[language].values()` in insertion order. -/
def language_fix_template_values (language : String) :
    Option (List String) :=
  if language = "python" then
    some ["if variable is None:\n    # 处理空值情况",
          "try:\n    # 可能抛出异常的代码\nexcept ExceptionType as e:\n    # 处理异常",
          "with open(file_path, 'r') as file:\n    # 使用文件"]
  else if language = "javascript" then
    some ["if (variable === undefined || variable === null) \x7b\n    // 处理空值情况\n\x7d",
          "try \x7b\n    // 可能抛出异常的代码\n\x7d catch (error) \x7b\n    // 处理异常\n\x7d",
          "element.addEventListener('event', handler);\n// 清理时\nelement.removeEventListener('event', handler);"]
  else if language = "java" then
    some ["if (variable == null) \x7b\n    // 处理空值情况\n\x7d",
          "try (Resource resource = new Resource()) \x7b\n    // 使用资源\n\x7d",
          "try \x7b\n    // 可能抛出异常的代码\n\x7d catch (Exception e) \x7b\n    // 处理异常\n\x7d"]
  else Option.none

/-- The `error_info` bundle of `_prepare_context`. -/
structure ContextErrorInfo where
  raw : String
  type : String
  language : String
deriving DecidableEq, Repr

/-- The `code_info` bundle of `_prepare_context`. -/
structure ContextCodeInfo where
  raw : String
  language : String
  filename : String
deriving DecidableEq, Repr

/-- The `root_cause_info` bundle of `_prepare_context`. -/
structure ContextRootCauseInfo where
  root_cause : String
  explanation : String
  problem_type : String
  causal_chain : List String
  affected_components : List String
deriving DecidableEq, Repr

/-- A similar-bug solution kept by `_prepare_context`. -/
structure SimilarSolution where
  title : String
  solution : String
  similarity : ℚ
deriving DecidableEq, Repr

/-- The context bundle of `_prepare_context` (a `none` component models
the empty dict `{}`). -/
structure SolutionContext where
  error_info : Option ContextErrorInfo := Option.none
  code_info : Option ContextCodeInfo := Option.none
  problem_info : Option String := Option.none
  root_cause_info : Option ContextRootCauseInfo := Option.none
  similar_solutions : List SimilarSolution := []
deriving DecidableEq, Repr

/-- `FixSuggestionGenerator._prepare_context`. -/
def prepare_context (input : AnalysisInputs)
    (root_cause : Option RootCauseConclusion)
    (similar_bugs : List SimilarBug) : SolutionContext :=
  let error_info :=
    match input.error_message with
    | Option.none => Option.none
    | some e =>
      some { raw := e.raw_content,
             type := e.error_type.getD "未知错误类型",
             language := e.language.getD "未知语言" }
  let code_info :=
    match input.code_snippet with
    | Option.none => Option.none
    | some c =>
      some { raw := c.raw_content,
             language := c.language.getD "未知语言",
             filename := c.filename.getD "" }
  let problem_info :=
    match input.problem_description with
    | Option.none => Option.none
    | some p => some p.raw_content
  let root_cause_info :=
    match root_cause with
    | Option.none => Option.none
    | some rc =>
      some { root_cause := rc.root_cause,
             explanation := rc.explanation,
             problem_type := rc.problem_type,
             causal_chain := rc.causal_chain,
             affected_components := rc.affected_components }
  let similar_solutions :=
    (similar_bugs.take 3).filterMap (fun bug =>
      match bug.solution with
      | Option.none => Option.none
      | some sol => some { title := bug.title, solution := sol,
                           similarity := bug.similarity })
  { error_info := error_info, code_info := code_info,
    problem_info := problem_info, root_cause_info := root_cause_info,
    similar_solutions := similar_solutions }

/-- The fix strategy built by `_determine_fix_strategy`. -/
structure FixStrategy where
  approach : String
  strategies : List String
  difficulty : String
  estimated_impact : String
  target_components : List String
  language_specific_patterns : List String
deriving DecidableEq, Repr

/-- `FixSuggestionGenerator._determine_fix_strategy`. -/
def determine_fix_strategy (context : SolutionContext) : FixStrategy :=
  let problem_type :=
    (context.root_cause_info.map (fun i => i.problem_type)).getD ""
  let approach_strategies :=
    if problem_type = "数据问题" || problem_type = "data_issues" then
      ("数据修复", fix_strategies_data)
    else if problem_type = "逻辑问题" || problem_type = "logic_issues" then
      ("逻辑修复", fix_strategies_logic)
    else if problem_type = "系统问题" || problem_type = "system_issues" then
      ("系统修复", fix_strategies_system)
    else if problem_type = "代码问题" || problem_type = "code_issues" then
      ("代码修复", fix_strategies_code)
    else
      let root_cause :=
        pyLower ((context.root_cause_info.map (fun i => i.root_cause)).getD "")
      if ["空值", "null", "undefined", "类型", "数据"].any
          (fun t => pyIn t root_cause) then ("数据修复", fix_strategies_data)
      else if ["逻辑", "条件", "算法", "判断"].any
          (fun t => pyIn t root_cause) then ("逻辑修复", fix_strategies_logic)
      else if ["系统", "配置", "环境", "资源", "权限"].any
          (fun t => pyIn t root_cause) then ("系统修复", fix_strategies_system)
      else if ["代码", "语法", "实现", "函数"].any
          (fun t => pyIn t root_cause) then ("代码修复", fix_strategies_code)
      else ("综合修复", ["修复代码错误", "优化实现", "增加异常处理",
                         "完善防御性编程"])
  let affected_components :=
    (context.root_cause_info.map (fun i => i.affected_components)).getD []
  let language :=
    pyLower ((context.code_info.map (fun i => i.language)).getD "")
  let causal_chain :=
    (context.root_cause_info.map (fun i => i.causal_chain)).getD []
  { approach := approach_strategies.1,
    strategies := approach_strategies.2,
    difficulty := if 3 < causal_chain.length then "高" else "中",
    estimated_impact := if 2 < affected_components.length then "高" else "中",
    target_components := affected_components,
    language_specific_patterns :=
      (language_fix_template_values language).getD [] }

/-- The fixed fallback of `_generate_detailed_solution` on a JSON-decode
failure (keeps the raw text under `raw_solution`). -/
def solutionFallback (raw : String) : Solution :=
  { solution_summary := "无法生成结构化解决方案",
    fix_steps := [],
    code_changes := [],
    explanation := "解析JSON时出现错误，请查看原始解决方案文本。",
    prevention_tips := [],
    alternative_solutions := [],
    raw_solution := some raw }

/-- `FixSuggestionGenerator._generate_detailed_solution` after the LLM
call. -/
def generate_detailed_solution (reply : PyStr Solution) :
    Except PyErr Solution :=
  match jsonLoadsReply reply with
  | .ok v => .ok v
  | .error (.inr raw) => .ok (solutionFallback raw)
  | .error (.inl e) => .error e

/-- The per-entry normalization of `_enhance_solution_quality`: fill the
four fields with the source's `.get` defaults. -/
def enhanceChange (change : CodeChange) : CodeChange :=
  { file := some (change.file.getD "未指定文件"),
    original_code := some (change.original_code.getD ""),
    fixed_code := some (change.fixed_code.getD ""),
    explanation := some (change.explanation.getD "无解释") }

/-- The keep-test of `_enhance_solution_quality` on an already-normalized
entry: both stripped texts non-empty and different. -/
def keepChange (e : CodeChange) : Bool :=
  let original := pyStrip (e.original_code.getD "")
  let fixed := pyStrip (e.fixed_code.getD "")
  original != "" && fixed != "" && original != fixed

/-- The code-change loop of `_enhance_solution_quality`: normalize each
entry, keep the meaningful ones. -/
def processChanges : List CodeChange → List CodeChange
  | [] => []
  | ch :: t =>
    let e := enhanceChange ch
    if keepChange e then e :: processChanges t else processChanges t

/-- The fix-step synthesis of `_enhance_solution_quality`
(`enumerate(enhanced_code_changes, 1)`). -/
def genFixStepsFrom (i : Nat) : List CodeChange → List String
  | [] => []
  | ch :: t =>
    ("步骤" ++ toString i ++ ": 修改文件 " ++ ch.file.getD "未指定文件" ++
      " - " ++ ch.explanation.getD "进行代码修改") :: genFixStepsFrom (i + 1) t

/-- The prevention-tip defaults of `_enhance_solution_quality`, keyed by
problem type. -/
def preventionTipsFor (problem_type : String) : List String :=
  if problem_type = "数据问题" || problem_type = "data_issues" then
    ["添加完善的输入数据验证", "实现更健壮的错误处理机制",
     "在关键操作前添加类型和空值检查"]
  else if problem_type = "逻辑问题" || problem_type = "logic_issues" then
    ["添加更多的单元测试，尤其是边界条件", "实现更清晰的条件判断逻辑",
     "在复杂条件中添加详细注释"]
  else if problem_type = "系统问题" || problem_type = "system_issues" then
    ["建立系统监控和告警机制", "实现优雅的系统降级策略",
     "定期检查系统配置和依赖"]
  else if problem_type = "代码问题" || problem_type = "code_issues" then
    ["实施代码审查流程", "使用静态代码分析工具", "遵循语言和项目的编码规范"]
  else
    ["增加单元测试和集成测试覆盖率", "实施更严格的代码审查流程",
     "提高日志质量以便更好地诊断问题"]

/-- `FixSuggestionGenerator._generate_alternative_solutions`. -/
def generate_alternative_solutions (context : SolutionContext)
    (_main_solution : Solution) : List String :=
  let problem_type :=
    (context.root_cause_info.map (fun i => i.problem_type)).getD ""
  let language :=
    pyLower ((context.code_info.map (fun i => i.language)).getD "")
  if problem_type = "数据问题" || problem_type = "data_issues" then
    ["使用" ++ language ++ "的数据验证库来实现更严格的类型检查",
     "采用防御性编程技术，为所有可能的空值情况添加回退策略",
     "重构数据处理逻辑，使用函数式编程模式处理数据流"]
  else if problem_type = "逻辑问题" || problem_type = "logic_issues" then
    ["重新设计算法或逻辑流程，考虑更简单的实现方式",
     "引入状态机模式来管理复杂的条件和状态转换",
     "使用更声明式的编程风格来表达业务逻辑"]
  else if problem_type = "系统问题" || problem_type = "system_issues" then
    ["使用配置管理系统统一管理所有环境配置",
     "实现服务降级策略，在资源不足时优雅降级",
     "使用依赖注入模式简化系统组件间的依赖关系"]
  else if problem_type = "代码问题" || problem_type = "code_issues" then
    ["重构代码以提高可读性和可维护性",
     "采用设计模式解决特定的架构问题",
     "引入更现代的语言特性或库来简化实现"]
  else
    ["实施更全面的错误处理策略",
     "重新评估当前架构是否适合问题域",
     "考虑使用更专业的工具或库解决特定问题"]

/-- `FixSuggestionGenerator._enhance_solution_quality`: skipped entirely
when the solution is the raw fallback; otherwise normalize and filter the
code changes and fill empty steps/tips/alternatives. -/
def enhance_solution_quality (solution : Solution)
    (context : SolutionContext) : Solution :=
  match solution.raw_solution with
  | some _ => solution
  | Option.none =>
    let enhanced_code_changes := processChanges solution.code_changes
    let fix_steps :=
      if solution.fix_steps = [] then genFixStepsFrom 1 enhanced_code_changes
      else solution.fix_steps
    let prevention_tips :=
      if solution.prevention_tips = [] then
        preventionTipsFor
          ((context.root_cause_info.map (fun i => i.problem_type)).getD "")
      else solution.prevention_tips
    let alternative_solutions :=
      if solution.alternative_solutions = [] then
        generate_alternative_solutions context solution
      else solution.alternative_solutions
    { solution with
        code_changes := enhanced_code_changes,
        fix_steps := fix_steps,
        prevention_tips := prevention_tips,
        alternative_solutions := alternative_solutions }

/-- `FixSuggestionGenerator.generate_solution`: context, strategy, LLM
synthesis, enhancement (the strategy only shapes the prompt). -/
def generate_solution (input : AnalysisInputs)
    (root_cause : Option RootCauseConclusion)
    (similar_bugs : List SimilarBug) (solReply : PyStr Solution) :
    Except PyErr Solution × List CallSite :=
  let context := prepare_context input root_cause similar_bugs
  let _fix_strategy := determine_fix_strategy context
  match generate_detailed_solution solReply with
  | .error e => (.error e, [.solutionCall])
  | .ok sol => (.ok (enhance_solution_quality sol context), [.solutionCall])

/-!
## Pipeline orchestrator (`AnalysisEngine`)

Wall-clock metadata (`analysis_timestamp`, `analysis_duration_ms`) is not
modelled; the ordered `components_used` list and the ordered list of
retry-wrapped LLM calls are.
-/

/-- The derived summary (`_generate_analysis_summary`). -/
structure AnalysisSummary where
  title : String
  problem_identified : Bool
  root_cause_identified : Bool
  solution_provided : Bool
  key_findings : List String
  recommendation : String
deriving DecidableEq, Repr

/-- The aggregate result of `AnalysisEngine.analyze`: the `analyses`
mapping (one optional entry per stage), the `similar_bugs` key (set only
when non-empty), the derived summary, and the `error` key (set only when
an exception reached the orchestrator's handler). -/
structure AnalysisResult where
  error_analysis : Option ParsedError := Option.none
  code_analysis : Option CombinedCodeAnalysis := Option.none
  root_cause : Option RootCauseConclusion := Option.none
  solution : Option Solution := Option.none
  similar_bugs : Option (List SimilarBug) := Option.none
  summary : Option AnalysisSummary := Option.none
  error : Option PyErr := Option.none
  components_used : List String := []
  calls : List CallSite := []
deriving DecidableEq, Repr

/-- Whether the `analyses` mapping of a result is empty. -/
def AnalysisResult.analysesEmpty (r : AnalysisResult) : Prop :=
  r.error_analysis = Option.none ∧ r.code_analysis = Option.none ∧
  r.root_cause = Option.none ∧ r.solution = Option.none

/-- `AnalysisEngine._generate_analysis_summary`. -/
def generate_analysis_summary (result : AnalysisResult) : AnalysisSummary :=
  let s : AnalysisSummary :=
    { title := "问题分析摘要", problem_identified := false,
      root_cause_identified := false, solution_provided := false,
      key_findings := [], recommendation := "" }
  let s := match result.error_analysis with
    | Option.none => s
    | some pe =>
      if pe.errorType ≠ "未知" then
        { s with problem_identified := true,
                 key_findings := s.key_findings ++
                   ["识别到" ++ pe.errorLanguage ++ "的" ++ pe.errorType ++ "错误"] }
      else s
  let s := match result.code_analysis with
    | Option.none => s
    | some ca =>
      if ca.potential_bugs ≠ [] then
        { s with problem_identified := true,
                 key_findings := s.key_findings ++
                   ["在代码中发现了" ++ toString ca.potential_bugs.length ++
                    "个潜在问题"] }
      else s
  let s := match result.root_cause with
    | Option.none => s
    | some rc =>
      if rc.root_cause ≠ "未能确定" then
        let s := { s with root_cause_identified := true,
                          key_findings := s.key_findings ++
                            ["根本原因: " ++ rc.root_cause] }
        if rc.causal_chain ≠ [] then
          { s with key_findings := s.key_findings ++ ["识别出问题的因果链"] }
        else s
      else s
  let s := match result.solution with
    | Option.none => s
    | some sol =>
      match sol.raw_solution with
      | some _ => s
      | Option.none =>
        let s := { s with solution_provided := true,
                          key_findings := s.key_findings ++
                            ["解决方案: " ++ sol.solution_summary] }
        let s := if sol.fix_steps ≠ [] then
            { s with key_findings := s.key_findings ++
                ["提供了" ++ toString sol.fix_steps.length ++ "个修复步骤"] }
          else s
        if sol.code_changes ≠ [] then
          { s with key_findings := s.key_findings ++
              ["提供了" ++ toString sol.code_changes.length ++ "处代码修改建议"] }
        else s
  let s := match result.similar_bugs with
    | Option.none => s
    | some bugs =>
      if bugs ≠ [] then
        { s with key_findings := s.key_findings ++
            ["找到了" ++ toString bugs.length ++ "个相似的历史问题"] }
      else s
  { s with recommendation :=
      if s.solution_provided then "建议按照提供的解决方案实施修复"
      else if s.root_cause_identified then "已识别根本原因，但需要人工制定解决方案"
      else if s.problem_identified then "已识别问题，但需要进一步分析根本原因"
      else "无法自动分析，建议人工审查" }

/-- The constant `self.analysis_pipeline` feature flags. -/
structure AnalysisPipelineFlags where
  error_analysis : Bool := true
  code_analysis : Bool := true
  similar_bugs_lookup : Bool := true
  root_cause_analysis : Bool := true
  solution_generation : Bool := true
deriving DecidableEq, Repr

/-- `AnalysisEngine.__init__` enables every stage. -/
def analysis_pipeline : AnalysisPipelineFlags := {}

/-- The reply of each (at most once invoked) retry-wrapped call site
during one request. -/
structure LLMEnv where
  errReply : PyStr ErrOverlay
  synReply : PyStr SyntaxAnalysis
  semReply : PyStr SemanticAnalysis
  logReply : PyStr (List LogEvent)
  causeReply : PyStr RootCauseAnalysis
  solReply : PyStr Solution
deriving DecidableEq, Repr

/-- `AnalysisEngine.analyze`: the sequential staged pipeline inside one
`try`.  `kb_response` is the (already failure-absorbed) knowledge-base
answer; an exception escaping a stage is captured into `error`, keeping
the already-assigned stage results, and the summary is not produced. -/
def analyze (env : LLMEnv) (kb_response : List SimilarBug)
    (input_data : AnalysisInputs) : AnalysisResult :=
  -- 1. error analysis (cannot raise)
  let error_analysis : Option ParsedError :=
    match input_data.error_message with
    | some e =>
      if analysis_pipeline.error_analysis then
        some (parse_error e env.errReply)
      else Option.none
    | Option.none => Option.none
  let r1 : AnalysisResult :=
    match error_analysis with
    | some pe =>
      { error_analysis := some pe,
        components_used := ["ErrorMessageParser"],
        calls := [CallSite.errorParseCall] }
    | Option.none => {}
  -- 2. code analysis
  let code_step : Except PyErr (Option CombinedCodeAnalysis) × List CallSite :=
    match input_data.code_snippet with
    | some c =>
      if analysis_pipeline.code_analysis then
        match analyze_code c env.synReply env.semReply with
        | (.ok ca, calls) => (.ok (some ca), calls)
        | (.error e, calls) => (.error e, calls)
      else (.ok Option.none, [])
    | Option.none => (.ok Option.none, [])
  match code_step with
  | (.error e, calls) =>
    { r1 with error := some e, calls := r1.calls ++ calls }
  | (.ok code_analysis, code_calls) =>
    let r2 :=
      match code_analysis with
      | some ca =>
        { r1 with code_analysis := some ca,
                  components_used := r1.components_used ++ ["CodeAnalyzer"],
                  calls := r1.calls ++ code_calls }
      | Option.none => { r1 with calls := r1.calls ++ code_calls }
    -- 3. similar-bug lookup (external service, absorbed failures)
    let similar_bugs :=
      if analysis_pipeline.similar_bugs_lookup then kb_response else []
    let r3 :=
      if similar_bugs ≠ [] then
        { r2 with similar_bugs := some similar_bugs,
                  components_used :=
                    r2.components_used ++ ["BugKnowledgeBaseClient"] }
      else r2
    -- 4. root-cause analysis
    let cause_step : Except PyErr (Option RootCauseConclusion) × List CallSite :=
      if analysis_pipeline.root_cause_analysis then
        match analyze_root_cause input_data error_analysis code_analysis
            similar_bugs env.logReply env.causeReply with
        | (.ok rc, calls) => (.ok (some rc), calls)
        | (.error e, calls) => (.error e, calls)
      else (.ok Option.none, [])
    match cause_step with
    | (.error e, calls) =>
      { r3 with error := some e, calls := r3.calls ++ calls }
    | (.ok root_cause, cause_calls) =>
      let r4 :=
        match root_cause with
        | some rc =>
          { r3 with root_cause := some rc,
                    components_used :=
                      r3.components_used ++ ["ProblemCauseInferenceModule"],
                    calls := r3.calls ++ cause_calls }
        | Option.none => { r3 with calls := r3.calls ++ cause_calls }
      -- 5. solution generation
      let solution_step : Except PyErr (Option Solution) × List CallSite :=
        if analysis_pipeline.solution_generation then
          match generate_solution input_data root_cause similar_bugs
              env.solReply with
          | (.ok sol, calls) => (.ok (some sol), calls)
          | (.error e, calls) => (.error e, calls)
        else (.ok Option.none, [])
      match solution_step with
      | (.error e, calls) =>
        { r4 with error := some e, calls := r4.calls ++ calls }
      | (.ok solution, sol_calls) =>
        let r5 :=
          match solution with
          | some sol =>
            { r4 with solution := some sol,
                      components_used :=
                        r4.components_used ++ ["FixSuggestionGenerator"],
                      calls := r4.calls ++ sol_calls }
          | Option.none => { r4 with calls := r4.calls ++ sol_calls }
        -- 6. summary
        { r5 with summary := some (generate_analysis_summary r5) }

/-!
## The specification-side quality formula and concrete fixtures
-/

/-- The combined quality score exactly as §4.4 of the specification words
it: start at 5; `-(complexity−5)×0.3`; ±1 for structure quality; +0.5 per
consistent-style flag; −0.8 per high-severity logic or security issue;
−0.2 per issue over logic issues, bugs and security concerns; round and
clamp to [1,10]. -/
def specQualityScore (sa : SyntaxAnalysis) (sem : SemanticAnalysis) : ℤ :=
  let severe : ℚ :=
    ((sem.logic_analysis.logic_issues.countP (fun i => i.severity == "高"))
      + (sem.security_concerns.countP (fun i => i.severity == "高")) : ℕ)
  let total : ℚ := ((sem.logic_analysis.logic_issues.length
      + sem.potential_bugs.length + sem.security_concerns.length : ℕ))
  let q : ℚ := 5 - (sa.code_structure.complexity_score - 5) * (3/10)
    + (if sa.code_structure.structure_quality = "良好" then 1
       else if sa.code_structure.structure_quality = "较差" then -1 else 0)
    + (if sa.style_consistency.naming_convention = "一致" then 1/2 else 0)
    + (if sa.style_consistency.indentation = "一致" then 1/2 else 0)
    + (if sa.style_consistency.comment_quality = "良好" then 1/2 else 0)
    - severe * (4/5) - total * (1/5)
  max 1 (min 10 (pyRound q))

/-- A schema-conformant deep-causal-analysis reply used as a concrete
pipeline fixture. -/
def sampleRCA : RootCauseAnalysis :=
  { root_cause := "未检查输入值是否为null", causal_chain := ["a", "b"],
    explanation := "e", affected_components := ["数据验证层"],
    evidence := ["ev"], confidence_level := 8, confidence_explanation := "ce" }

/-- A schema-conformant solution reply used as a concrete fixture. -/
def sampleSol : Solution :=
  { solution_summary := "s", fix_steps := ["f1"], code_changes := [],
    explanation := "ex", prevention_tips := ["p"],
    alternative_solutions := ["alt"] }

/-- A schema-conformant phase-A reply used as a concrete fixture. -/
def sampleSyn : SyntaxAnalysis :=
  { syntax_issues := [],
    code_structure :=
      { complexity_score := 3
        main_components := []
        structure_quality := "良好"
        structure_issues := [] },
    style_consistency :=
      { naming_convention := "一致"
        indentation := "一致"
        comment_quality := "良好" } }

/-- A schema-conformant phase-B reply used as a concrete fixture. -/
def sampleSem : SemanticAnalysis :=
  { logic_analysis :=
      { purpose := "p"
        logic_flow := "f"
        edge_cases := []
        logic_issues := [] },
    potential_bugs := [], performance_issues := [], security_concerns := [] }

/-- An environment in which every call site gets a decodable reply. -/
def envValid : LLMEnv :=
  { errReply := .valid llmParseFallbackFields "r",
    synReply := .valid sampleSyn "r",
    semReply := .valid sampleSem "r",
    logReply := .valid [] "r",
    causeReply := .valid sampleRCA "r",
    solReply := .valid sampleSol "r" }

/-- `envValid` with a total provider failure at the syntax call site. -/
def envSynFail : LLMEnv := { envValid with synReply := .none }

/-- `envValid` with an undecodable reply at the root-cause call site. -/
def envCauseBad : LLMEnv := { envValid with causeReply := .invalid "not json" }

/-- A request whose `inputs` mapping has none of the four keys. -/
def emptyInputs : AnalysisInputs := {}

/-- A request carrying only a code snippet. -/
def codeOnlyInputs : AnalysisInputs :=
  { code_snippet :=
      some { raw_content := "def f():\n    return 1/0",
             language := some "python" } }

/-- The stack frame of the C6 scenario. -/
def c6_frame : StackFrame :=
  { file := "app.py", line := 21, function := some "process_data" }

/-- An error text with the two substrings the claim quantifies over but
without the `Traceback (most recent call last)` header. -/
def c6_headerless_text : String :=
  "ZeroDivisionError\nFile \"app.py\", line 21, in process_data"

/-- The full scenario text: traceback header, frame line, source line,
trailing error line. -/
def c6_scenario_text : String :=
  "Traceback (most recent call last):\n  File \"app.py\", line 21, in process_data\n    result = 10 / 0\nZeroDivisionError: division by zero"

/-- A code change whose original and fixed texts differ only by
surrounding whitespace (and are both non-empty). -/
def c8_change : CodeChange :=
  { file := some "main.py", original_code := some " x = 1 ",
    fixed_code := some "x = 1", explanation := some "tidy" }

/-- A parsed (non-fallback) solution holding `c8_change`. -/
def c8_solution : Solution :=
  { solution_summary := "s", fix_steps := ["step"],
    code_changes := [c8_change], explanation := "e",
    prevention_tips := ["t"], alternative_solutions := ["a"] }

/-- A provider that fails on every attempt except the second. -/
def c3_gen : Nat → Option String :=
  fun i => if i = 1 then some "ok" else Option.none

/-!
## Helper lemmas
-/

theorem strTruthy_ne_none {r : Option String} (h : strTruthy r = true) :
    r ≠ Option.none := by
  cases r with
  | none => simp [strTruthy] at h
  | some s => simp

theorem retryGo_three (gen : Nat → Option String) (a : Nat) :
    retryGo gen a 3 =
      if strTruthy (gen a) then (gen a, 1)
      else if strTruthy (gen (a + 1)) then (gen (a + 1), 2)
      else if strTruthy (gen (a + 2)) then (gen (a + 2), 3)
      else (Option.none, 3) := by
  show retryGo gen a (2 + 1) = _
  rw [retryGo]
  split
  · rfl
  · show (let rest := retryGo gen (a + 1) (1 + 1); (rest.1, rest.2 + 1)) = _
    rw [retryGo]
    split
    · rfl
    · show (let rest := (let rest := retryGo gen (a + 2) (0 + 1);
          (rest.1, rest.2 + 1)); (rest.1, rest.2 + 1)) = _
      rw [retryGo]
      split
      · rfl
      · rw [retryGo]

theorem enhanceChange_idem (ch : CodeChange) :
    enhanceChange (enhanceChange ch) = enhanceChange ch := by
  simp [enhanceChange]

theorem processChanges_eq_filter (l : List CodeChange) :
    processChanges l = (l.map enhanceChange).filter keepChange := by
  induction l with
  | nil => rfl
  | cons ch t ih =>
    simp only [processChanges, List.map_cons, List.filter_cons]
    split <;> simp_all

theorem processChanges_idem (l : List CodeChange) :
    processChanges (processChanges l) = processChanges l := by
  induction l with
  | nil => rfl
  | cons ch t ih =>
    simp only [processChanges]
    by_cases hk : keepChange (enhanceChange ch) = true
    · simp only [if_pos hk, processChanges, enhanceChange_idem, if_pos hk, ih]
    · simp only [if_neg hk, ih]

theorem genFixStepsFrom_eq_nil_iff (i : Nat) (l : List CodeChange) :
    genFixStepsFrom i l = [] ↔ l = [] := by
  cases l <;> simp [genFixStepsFrom]

theorem preventionTipsFor_ne_nil (pt : String) : preventionTipsFor pt ≠ [] := by
  unfold preventionTipsFor
  split_ifs <;> simp

theorem generate_alternative_solutions_ne_nil (c : SolutionContext)
    (m : Solution) : generate_alternative_solutions c m ≠ [] := by
  simp only [generate_alternative_solutions]
  split_ifs <;> simp

/-!
## The claims
-/

/-- C1: the claim says a total provider failure at an analyzer call site
is absorbed locally and `AnalysisEngine.analyze` sets no `error` field.
The code instead feeds `None` to `json.loads` at the syntax call site,
raising a `TypeError` that `except json.JSONDecodeError` does not catch:
the pipeline fault handler sets `error` and the later stages never run. -/
theorem C1_provider_failure_sets_error :
    codeOnlyInputs.code_snippet ≠ Option.none ∧
    envSynFail.synReply = PyStr.none ∧
    (analyze envSynFail [] codeOnlyInputs).error = some PyErr.typeError ∧
    (analyze envSynFail [] codeOnlyInputs).calls = [CallSite.syntaxCall] ∧
    (analyze envSynFail [] codeOnlyInputs).code_analysis = Option.none := by
  decide

/-- C2 (counterexample): a request with none of the four recognized input
keys still performs the root-cause and solution model calls, and its
`analyses` mapping is not empty. -/
theorem C2_counterexample :
    emptyInputs = ({} : AnalysisInputs) ∧
    (analyze envValid [] emptyInputs).calls =
      [CallSite.rootCauseCall, CallSite.solutionCall] ∧
    (analyze envValid [] emptyInputs).root_cause ≠ Option.none ∧
    (analyze envValid [] emptyInputs).solution ≠ Option.none := by
  decide

/-- C2 (amended): with none of the four recognized keys, the error- and
code-analysis stages are skipped, but the root-cause and solution stages
still run — each makes exactly one retry-wrapped model call — so the
`analyses` mapping contains the root-cause and solution entries whenever
those two replies are not total provider failures. -/
theorem C2_no_inputs_amended (env : LLMEnv) (kb : List SimilarBug)
    (input : AnalysisInputs)
    (h1 : input.error_message = Option.none)
    (h2 : input.code_snippet = Option.none)
    (h3 : input.problem_description = Option.none)
    (h4 : input.log_info = Option.none)
    (hc : env.causeReply ≠ PyStr.none)
    (hs : env.solReply ≠ PyStr.none) :
    (analyze env kb input).error_analysis = Option.none ∧
    (analyze env kb input).code_analysis = Option.none ∧
    (analyze env kb input).root_cause ≠ Option.none ∧
    (analyze env kb input).solution ≠ Option.none ∧
    (analyze env kb input).calls =
      [CallSite.rootCauseCall, CallSite.solutionCall] := by
  obtain ⟨em, cs, pd, li⟩ := input
  simp only at h1 h2 h3 h4
  subst h1 h2 h3 h4
  have hcause : ∃ rc, deep_causal_analysis env.causeReply = .ok rc := by
    cases hcr : env.causeReply with
    | none => exact absurd hcr hc
    | invalid raw => exact ⟨_, rfl⟩
    | valid v raw => exact ⟨_, rfl⟩
  have hsol : ∃ s, generate_detailed_solution env.solReply = .ok s := by
    cases hsr : env.solReply with
    | none => exact absurd hsr hs
    | invalid raw => exact ⟨_, rfl⟩
    | valid v raw => exact ⟨_, rfl⟩
  obtain ⟨rc, hrc⟩ := hcause
  obtain ⟨sol, hsol⟩ := hsol
  simp only [analyze, analyze_root_cause, preprocess_information,
    generate_solution, hrc, hsol, analysis_pipeline, if_true]
  by_cases hkb : kb = [] <;>
    simp [hkb]

/-- C2 witness: the amended statement at a concrete keyless request. -/
theorem C2_no_inputs_amended_witness :
    (analyze envValid [] emptyInputs).error_analysis = Option.none ∧
    (analyze envValid [] emptyInputs).code_analysis = Option.none ∧
    (analyze envValid [] emptyInputs).root_cause ≠ Option.none ∧
    (analyze envValid [] emptyInputs).solution ≠ Option.none ∧
    (analyze envValid [] emptyInputs).calls =
      [CallSite.rootCauseCall, CallSite.solutionCall] :=
  C2_no_inputs_amended envValid [] emptyInputs rfl rfl rfl rfl
    (by decide) (by decide)

/-- C3: `generate_with_retry` with `max_retries = 2` invokes the provider
at most 3 times, returns the text of the first attempt whose result is
truthy (non-`None` and non-empty), and returns `None` if and only if all
three attempts fail. -/
theorem C3_retry_semantics (gen : Nat → Option String) :
    retryCallCount gen 2 ≤ 3 ∧
    (∀ i, i < 3 → strTruthy (gen i) = true →
      (∀ j, j < i → strTruthy (gen j) = false) →
      generate_with_retry gen 2 = gen i) ∧
    (generate_with_retry gen 2 = Option.none ↔
      ∀ i, i < 3 → strTruthy (gen i) = false) := by
  have h3 := retryGo_three gen 0
  simp only [Nat.zero_add] at h3
  refine ⟨?_, ?_, ?_⟩
  · unfold retryCallCount
    rw [h3]
    split
    · simp
    · split
      · simp
      · split <;> simp
  · intro i hi ht hprev
    unfold generate_with_retry
    rw [h3]
    interval_cases i
    · simp [ht]
    · have h0 := hprev 0 (by omega)
      simp [h0, ht]
    · have h0 := hprev 0 (by omega)
      have h1 := hprev 1 (by omega)
      simp [h0, h1, ht]
  · unfold generate_with_retry
    rw [h3]
    constructor
    · intro hnone i hi
      by_contra hc
      rw [Bool.not_eq_false] at hc
      interval_cases i
      · rw [if_pos hc] at hnone
        exact strTruthy_ne_none hc hnone
      · by_cases h0 : strTruthy (gen 0) = true
        · rw [if_pos h0] at hnone
          exact strTruthy_ne_none h0 hnone
        · rw [Bool.not_eq_true] at h0
          rw [if_neg (by simp [h0]), if_pos hc] at hnone
          exact strTruthy_ne_none hc hnone
      · by_cases h0 : strTruthy (gen 0) = true
        · rw [if_pos h0] at hnone
          exact strTruthy_ne_none h0 hnone
        · rw [Bool.not_eq_true] at h0
          by_cases h1 : strTruthy (gen 1) = true
          · rw [if_neg (by simp [h0]), if_pos h1] at hnone
            exact strTruthy_ne_none h1 hnone
          · rw [Bool.not_eq_true] at h1
            rw [if_neg (by simp [h0]), if_neg (by simp [h1]),
              if_pos hc] at hnone
            exact strTruthy_ne_none hc hnone
    · intro hall
      have h0 := hall 0 (by omega)
      have h1 := hall 1 (by omega)
      have h2 := hall 2 (by omega)
      simp [h0, h1, h2]

/-- C3 witness: the provider that succeeds on its second attempt. -/
theorem C3_retry_semantics_witness :
    generate_with_retry c3_gen 2 = c3_gen 1 ∧ retryCallCount c3_gen 2 ≤ 3 :=
  ⟨(C3_retry_semantics c3_gen).2.1 1 (by omega) (by decide)
      (fun j hj => by
        interval_cases j
        decide),
   (C3_retry_semantics c3_gen).1⟩

/-- C4: the four cause-category scores always sum to 1 exactly (hence
within 1e-6 of 1.0), and when every raw increment is zero each score is
exactly 0.25. -/
theorem C4_scores_sum (info : IntegratedInfo) :
    |(categorize_potential_causes info).total - 1| ≤ 1 / 1000000 ∧
    (categorize_raw info = ⟨0, 0, 0, 0⟩ →
      categorize_potential_causes info = ⟨1/4, 1/4, 1/4, 1/4⟩) := by
  simp only [categorize_potential_causes]
  by_cases hpos : 0 < (categorize_raw info).total
  · rw [if_pos hpos]
    constructor
    · have hne : (categorize_raw info).total ≠ 0 := ne_of_gt hpos
      unfold CauseScores.total at hne ⊢
      rw [div_add_div_same, div_add_div_same, div_add_div_same]
      rw [div_self hne]
      norm_num
    · intro hz
      rw [hz] at hpos
      simp [CauseScores.total] at hpos
  · rw [if_neg hpos]
    constructor
    · simp [CauseScores.total]
      norm_num
    · intro _
      rfl

/-- C4 witness: a signal-free bundle normalizes to four 0.25 scores. -/
theorem C4_scores_sum_witness :
    |(categorize_potential_causes {}).total - 1| ≤ 1 / 1000000 ∧
    categorize_potential_causes {} = ⟨1/4, 1/4, 1/4, 1/4⟩ :=
  ⟨(C4_scores_sum {}).1, (C4_scores_sum {}).2 (by decide)⟩

/-- C5: the combined code-quality score equals the specification's
formula and is always an integer in [1,10]. -/
theorem C5_quality_score (sa : SyntaxAnalysis) (sem : SemanticAnalysis) :
    evaluate_code_quality sa sem = specQualityScore sa sem ∧
    1 ≤ evaluate_code_quality sa sem ∧ evaluate_code_quality sa sem ≤ 10 := by
  have heq : evaluate_code_quality sa sem = specQualityScore sa sem := by
    simp only [evaluate_code_quality, specQualityScore]
    congr 2
    split_ifs <;> push_cast <;> ring
  refine ⟨heq, ?_, ?_⟩
  · exact le_max_left 1 _
  · unfold evaluate_code_quality
    exact max_le (by norm_num) (le_trans (min_le_left _ _) (by norm_num))

/-- C5 witness: the score of the concrete phase fixtures. -/
theorem C5_quality_score_witness :
    evaluate_code_quality sampleSyn sampleSem =
      specQualityScore sampleSyn sampleSem ∧
    1 ≤ evaluate_code_quality sampleSyn sampleSem ∧
    evaluate_code_quality sampleSyn sampleSem ≤ 10 :=
  C5_quality_score sampleSyn sampleSem

set_option maxRecDepth 10000 in
/-- C6 (counterexample): an error text containing `ZeroDivisionError` and
the frame line but no `Traceback (most recent call last)` header parses
to `error_type = "zero_division"` (the pattern-table key, never
`"exception"`) with an empty stack trace, refuting the claim. -/
theorem C6_counterexample :
    pyIn "ZeroDivisionError" c6_headerless_text = true ∧
    pyIn "File \"app.py\", line 21, in process_data" c6_headerless_text = true ∧
    ¬ ((rule_based_parsing c6_headerless_text).error_type = "exception" ∧
       c6_frame ∈ (rule_based_parsing c6_headerless_text).stack_trace ∧
       (rule_based_parsing c6_headerless_text).error_location = some c6_frame) := by
  decide

set_option maxRecDepth 10000 in
/-- C6 (amended): with the traceback header present, the scenario text
parses to `error_type = "ZeroDivisionError"` (the extracted error name),
message `"division by zero"`, a stack trace equal to the one frame, and
`error_location` equal to that last frame; without the header no frame is
extracted and the error type is the pattern-table key `"zero_division"`. -/
theorem C6_scenario_amended :
    pyIn "ZeroDivisionError" c6_scenario_text = true ∧
    pyIn "File \"app.py\", line 21, in process_data" c6_scenario_text = true ∧
    (rule_based_parsing c6_scenario_text).error_type = "ZeroDivisionError" ∧
    (rule_based_parsing c6_scenario_text).stack_trace = [c6_frame] ∧
    (rule_based_parsing c6_scenario_text).error_location = some c6_frame ∧
    (rule_based_parsing c6_scenario_text).error_message = "division by zero" ∧
    (rule_based_parsing c6_headerless_text).error_type = "zero_division" ∧
    (rule_based_parsing c6_headerless_text).stack_trace = [] := by
  decide

/-- C7: the claim says `root_cause_identified` is false whenever the deep
causal analysis fell back (root cause `"无法确定"`).  The summary however
compares against the different sentinel `"未能确定"`, so the flag comes
out true even on the fallback run. -/
theorem C7_fallback_flag_true :
    envCauseBad.causeReply = PyStr.invalid "not json" ∧
    ((analyze envCauseBad [] emptyInputs).root_cause.map
      (fun rc => rc.root_cause)) = some "无法确定" ∧
    ((analyze envCauseBad [] emptyInputs).summary.map
      (fun s => s.root_cause_identified)) = some true := by
  decide

/-- C8 (counterexample): a code-change entry whose original and fixed
texts are non-empty and different — which the claim says survives — is
removed by the enhancement step, because the source compares the
whitespace-stripped texts. -/
theorem C8_counterexample :
    c8_solution.raw_solution = Option.none ∧
    c8_solution.code_changes = [c8_change] ∧
    c8_change.original_code.getD "" ≠ "" ∧
    c8_change.fixed_code.getD "" ≠ "" ∧
    c8_change.original_code ≠ c8_change.fixed_code ∧
    (enhance_solution_quality c8_solution {}).code_changes = [] := by
  decide

/-- C8 (amended): for every parsed solution, enhancement keeps exactly
the (default-filled) entries whose stripped original and fixed texts are
both non-empty and different, and enhancement is idempotent. -/
theorem C8_enhancement_amended (solution : Solution)
    (context : SolutionContext) (h : solution.raw_solution = Option.none) :
    (enhance_solution_quality solution context).code_changes =
      (solution.code_changes.map enhanceChange).filter keepChange ∧
    enhance_solution_quality (enhance_solution_quality solution context)
        context = enhance_solution_quality solution context := by
  obtain ⟨ss, fs, cc, ex, pt, alts, rs⟩ := solution
  simp only at h
  subst h
  constructor
  · simp [enhance_solution_quality, processChanges_eq_filter]
  · simp only [enhance_solution_quality, processChanges_idem]
    split_ifs <;>
      simp_all [genFixStepsFrom_eq_nil_iff, processChanges_idem,
        preventionTipsFor_ne_nil, generate_alternative_solutions_ne_nil]

/-- C8 witness: the amended statement at a concrete parsed solution. -/
theorem C8_enhancement_amended_witness :
    (enhance_solution_quality sampleSol {}).code_changes =
      (sampleSol.code_changes.map enhanceChange).filter keepChange ∧
    enhance_solution_quality (enhance_solution_quality sampleSol {}) {} =
      enhance_solution_quality sampleSol {} :=
  C8_enhancement_amended sampleSol {} rfl

/-- C9: with exactly 4 affected components and a base severity of `"中"`
(no severity keyword fired), the derived severity escalates to `"中高"`,
and it is forced to `"高"` whenever some affected component name contains
`"database"`. -/
theorem C9_severity_escalation (root_cause : String) (input : AnalysisInputs)
    (affected : List String)
    (hbase : severityFromError input = "中")
    (hlen : affected.length = 4) :
    (affected.all (fun comp =>
        !(core_components.any (fun core => pyIn core (pyLower comp)))) = true →
      determine_severity root_cause input affected = "中高") ∧
    (affected.any (fun comp => pyIn "database" (pyLower comp)) = true →
      determine_severity root_cause input affected = "高") := by
  have hne : affected ≠ [] := by
    intro hnil
    rw [hnil] at hlen
    simp at hlen
  have hgt : 3 < affected.length := by omega
  constructor
  · intro hnocore
    have hfalse : affected.any (fun comp =>
        core_components.any (fun core => pyIn core (pyLower comp))) = false := by
      rw [List.any_eq_false]
      intro comp hmem
      have := (List.all_eq_true.mp hnocore) comp hmem
      simpa using this
    simp [determine_severity, hbase, hne, hgt, hfalse]
  · intro hdb
    have htrue : affected.any (fun comp =>
        core_components.any (fun core => pyIn core (pyLower comp))) = true := by
      rw [List.any_eq_true] at hdb ⊢
      obtain ⟨comp, hmem, hc⟩ := hdb
      refine ⟨comp, hmem, ?_⟩
      have hdc : pyIn "database" (pyLower comp) = true := by simpa using hc
      simp [core_components, hdc]
    simp [determine_severity, hbase, hne, hgt, htrue]

/-- C9 witness: four components, one containing `database`. -/
theorem C9_severity_escalation_witness :
    determine_severity "rc" ({} : AnalysisInputs)
      ["api", "ui", "cache", "database-service"] = "高" :=
  (C9_severity_escalation "rc" {} ["api", "ui", "cache", "database-service"]
    rfl rfl).2 (by decide)

/-- C10: when the retry-wrapped error-parse call returns no text at all,
`parse_error` keeps every rule-based field and overlays the empty dict;
the fixed fallback object — placeholder severity `"未知"`, raw text
preserved — arises exactly from a non-empty reply that fails JSON
decoding. -/
theorem C10_parse_error_failure_modes (e : ErrorInput) :
    (parse_error e PyStr.none).basic = rule_based_parsing e.raw_content ∧
    (parse_error e PyStr.none).overlay = LLMParseOverlay.empty ∧
    llmParseFallbackFields.severity = "未知" ∧
    (∀ reply : PyStr ErrOverlay, ∀ a : ErrOverlay, ∀ raw : String,
      (parse_error e reply).overlay = LLMParseOverlay.fallbackObj a raw ↔
        (reply = PyStr.invalid raw ∧ a = llmParseFallbackFields)) := by
  refine ⟨rfl, rfl, rfl, ?_⟩
  intro reply a raw
  cases reply with
  | none => simp [parse_error, llm_based_parsing]
  | invalid r =>
    simp only [parse_error, llm_based_parsing]
    constructor
    · intro h
      cases h
      exact ⟨rfl, rfl⟩
    · rintro ⟨h1, h2⟩
      cases h1
      rw [h2]
  | valid v r => simp [parse_error, llm_based_parsing]

/-- C10 witness: the two failure modes at a concrete error input. -/
theorem C10_parse_error_failure_modes_witness :
    (parse_error { raw_content := "x" } PyStr.none).overlay =
      LLMParseOverlay.empty ∧
    (parse_error { raw_content := "x" } (PyStr.invalid "y")).overlay =
      LLMParseOverlay.fallbackObj llmParseFallbackFields "y" :=
  ⟨(C10_parse_error_failure_modes { raw_content := "x" }).2.1,
   ((C10_parse_error_failure_modes { raw_content := "x" }).2.2.2
      (PyStr.invalid "y") llmParseFallbackFields "y").mpr ⟨rfl, rfl⟩⟩
